import Mathlib

/-!
Verification of the OptiMeal-Engine core against its specification.

This file gives a shallow embedding, in Lean 4, of the algorithmic core of
the repository: the recipe-selection integer program
(`backend/services/optimization_service.py`), the greedy weekly scheduler
(`backend/services/meal_planner_service.py`), the grocery/store optimizer
(`backend/services/grocery_optimizer_service.py`) and the unit utilities
(`backend/utils/ingredient_utils.py`).  Python floats are embedded as `ℚ`
(exact arithmetic), Python dicts as insertion-ordered association lists,
and Python's stable `list.sort` as a stable insertion sort.
-/

attribute [local semireducible] Rat.mul Rat.add Rat.sub Rat.ofScientific

namespace OptiMeal

/-- Ingredient record, from `backend/models/recipe.py` (`class Ingredient`). -/
structure Ingredient where
  name : String
  amount : ℚ
  unit : String
  cost_per_unit : ℚ
  calories_per_unit : ℚ
  protein_per_unit : ℚ
  carbs_per_unit : ℚ
  fat_per_unit : ℚ
deriving DecidableEq

/-- Recipe record, from `backend/models/recipe.py` (`class Recipe`). -/
structure Recipe where
  id : String
  name : String
  description : String
  ingredients : List Ingredient
  steps : List String
  cooking_time_min : ℕ
  difficulty_level : String
  cuisine_type : String
  dietary_restrictions : List String
  allergens : List String
  total_calories : ℚ
  total_protein_g : ℚ
  total_carbs_g : ℚ
  total_fat_g : ℚ
  total_cost : ℚ
deriving DecidableEq

/-- User preference record, from `backend/models/user_preferences.py`
(`class UserPreferences`); the enumerated fields are kept as strings. -/
structure UserPreferences where
  dietary_restrictions : List String
  allergies : List String
  dislikes : List String
  target_protein_g : Option ℤ
  target_carbs_g : Option ℤ
  target_fat_g : Option ℤ
  target_calories : Option ℤ
  preferred_cuisines : List String
  cooking_skill_level : String
  max_cooking_time_min : ℕ
  weekly_budget : ℚ
  max_repeats_per_week : ℕ
deriving DecidableEq

/-- Weekly nutritional target, from `optimization_service.py` lines 36-39:
`user_preferences.target_protein_g * days if user_preferences.target_protein_g
else 0`.  Python truthiness maps both `None` and `0` to `0`. -/
def weeklyTarget (t : Option ℤ) (days : ℕ) : ℤ :=
  match t with
  | none => 0
  | some v => if v = 0 then 0 else v * (days : ℤ)

/-- Weighted rational sum `sum(x[i] * f(recipes[i]))` over the decision
vector, as in the constraint sums of `optimize_meal_plan`. -/
def wsum (recipes : List Recipe) (xs : List ℕ) (f : Recipe → ℚ) : ℚ :=
  ((recipes.zip xs).map (fun rx => (rx.2 : ℚ) * f rx.1)).sum

/-- Weighted natural sum `sum(x[i] * f(recipes[i]))` for the cooking-time
constraint of `optimize_meal_plan`. -/
def nwsum (recipes : List Recipe) (xs : List ℕ) (f : Recipe → ℕ) : ℕ :=
  ((recipes.zip xs).map (fun rx => rx.2 * f rx.1)).sum

/-- Nutrition band check of `optimize_meal_plan` lines 43-73: when the weekly
target is positive, the weighted sum must lie within 20% of it; a
non-positive target imposes no constraint. -/
def macroBandOK (target : ℤ) (actual : ℚ) : Bool :=
  if 0 < target then
    decide ((0.8 : ℚ) * (target : ℚ) ≤ actual) && decide (actual ≤ (1.2 : ℚ) * (target : ℚ))
  else true

/-- Conjunction of the constraints added to the solver in
`optimize_meal_plan` lines 41-93: nutrition bands, budget, per-recipe
variety cap, minimum total meals (`3 * days`), aggregate cooking time, and
the `IntVar(0, 10)` variable bounds. -/
def feasible (recipes : List Recipe) (p : UserPreferences) (days : ℕ) (xs : List ℕ) : Bool :=
  decide (3 * days ≤ xs.sum) &&
  xs.all (fun v => v ≤ 10) &&
  xs.all (fun v => v ≤ p.max_repeats_per_week) &&
  decide (nwsum recipes xs (fun r => r.cooking_time_min) ≤ 3 * days * p.max_cooking_time_min) &&
  decide (wsum recipes xs (fun r => r.total_cost) ≤ p.weekly_budget) &&
  macroBandOK (weeklyTarget p.target_protein_g days) (wsum recipes xs (fun r => r.total_protein_g)) &&
  macroBandOK (weeklyTarget p.target_carbs_g days) (wsum recipes xs (fun r => r.total_carbs_g)) &&
  macroBandOK (weeklyTarget p.target_fat_g days) (wsum recipes xs (fun r => r.total_fat_g)) &&
  macroBandOK (weeklyTarget p.target_calories days) (wsum recipes xs (fun r => r.total_calories))

/-- All decision vectors within the `IntVar(0, 10)` bounds declared in
`optimize_meal_plan` line 33, one entry per candidate recipe. -/
def allVectors : ℕ → List (List ℕ)
  | 0 => [[]]
  | n + 1 => ((List.range 11).map (fun v => (allVectors n).map (fun xs => v :: xs))).flatten

/-- Accumulator of the minimum-cost search in `solveIP`: keep the current
best feasible vector, replacing it only on strictly lower cost. -/
def choose_cheaper (recipes : List Recipe) (best : Option (List ℕ)) (xs : List ℕ) :
    Option (List ℕ) :=
  match best with
  | none => some xs
  | some b =>
    if wsum recipes xs (fun r => r.total_cost) < wsum recipes b (fun r => r.total_cost) then
      some xs
    else some b

/-- Model of the external MILP solver invocation (`solver.Solve()` on SCIP,
`optimize_meal_plan` lines 129-135): by the solver's contract it returns,
with status `OPTIMAL`/`FEASIBLE`, an integral assignment satisfying every
added constraint and minimizing the cost objective, and signals
infeasibility otherwise.  The bounded integer program is modelled by
exhaustive search over the finite variable domain, keeping a minimum-cost
feasible vector. -/
def solveIP (recipes : List Recipe) (p : UserPreferences) (days : ℕ) : Option (List ℕ) :=
  ((allVectors recipes.length).filter (fun xs => feasible recipes p days xs)).foldl
    (choose_cheaper recipes) none

/-- Embedding of `OptimizationService._relax_and_solve` lines 148-160: the
method prints a message and returns the empty list; no constraint is
actually relaxed and no second solve happens. -/
def relax_and_solve (_recipes : List Recipe) (_p : UserPreferences) (_days : ℕ) :
    List (Recipe × ℕ) :=
  []

/-- Embedding of `OptimizationService.optimize_meal_plan` lines 14-146: on a
successful solve, keep the `(recipe, servings)` pairs with positive
servings; otherwise fall through to `_relax_and_solve`. -/
def optimize_meal_plan (recipes : List Recipe) (p : UserPreferences) (days : ℕ) :
    List (Recipe × ℕ) :=
  match solveIP recipes p days with
  | some xs => (recipes.zip xs).filter (fun rx => 0 < rx.2)
  | none => relax_and_solve recipes p days

/-- Embedding of the selection stage of `MealPlannerService.generate_meal_plan`
lines 22-44 (filtering is performed upstream; the date-dependent assembly of
the final `MealPlan` object is outside this embedding): an empty candidate
pool and an empty optimization result each raise a `ValueError`. -/
def generate_meal_plan_selection (filtered : List Recipe) (p : UserPreferences) :
    Except String (List (Recipe × ℕ)) :=
  if filtered.isEmpty then
    Except.error "No recipes match your preferences and constraints"
  else
    let plan := optimize_meal_plan filtered p 7
    if plan.isEmpty then
      Except.error "Could not generate a meal plan within your constraints"
    else
      Except.ok plan

/-- Total servings of a selection, `sum(servings)`. -/
def servingsTotal (sel : List (Recipe × ℕ)) : ℕ :=
  (sel.map (fun rs => rs.2)).sum

/-- Total cost of a selection, `sum(servings * recipe.total_cost)`. -/
def selectionCost (sel : List (Recipe × ℕ)) : ℚ :=
  (sel.map (fun rs => (rs.2 : ℚ) * rs.1.total_cost)).sum

/-- Weighted macro sum of a selection for a given per-recipe total. -/
def selectionMacroSum (sel : List (Recipe × ℕ)) (f : Recipe → ℚ) : ℚ :=
  (sel.map (fun rs => (rs.2 : ℚ) * f rs.1)).sum

/-- Nutrition-band property used to state claim C2: whenever the weekly
target is positive the actual weighted sum lies within the 20% band. -/
def weeklyBandOK (t : Option ℤ) (days : ℕ) (actual : ℚ) : Prop :=
  0 < weeklyTarget t days →
    ((0.8 : ℚ) * ((weeklyTarget t days : ℤ) : ℚ) ≤ actual ∧
     actual ≤ (1.2 : ℚ) * ((weeklyTarget t days : ℤ) : ℚ))

/-- Key under which `calculate_grocery_list` (optimization_service.py lines
162-178) aggregates an ingredient: the literal f-string
`f"{ingredient.name} ({ingredient.unit})"` with the ingredient's raw unit. -/
def grocery_key (i : Ingredient) : String :=
  i.name ++ " (" ++ i.unit ++ ")"

/-- Insertion-ordered dictionary update `d[k] = d.get(k, 0) + amount`, as the
Python dict mutation in `calculate_grocery_list` behaves. -/
def upsert_add (key : String) (amount : ℚ) : List (String × ℚ) → List (String × ℚ)
  | [] => [(key, amount)]
  | (k, v) :: rest =>
    if k = key then (k, v + amount) :: rest else (k, v) :: upsert_add key amount rest

/-- Embedding of `OptimizationService.calculate_grocery_list` lines 162-178:
sums `ingredient.amount * servings` into the key `"name (unit)"`; no unit
conversion is applied. -/
def calculate_grocery_list (meal_plan : List (Recipe × ℕ)) : List (String × ℚ) :=
  meal_plan.foldl (fun acc rs =>
    rs.1.ingredients.foldl
      (fun acc2 ing => upsert_add (grocery_key ing) (ing.amount * (rs.2 : ℚ)) acc2) acc) []

/-- Embedding of `standardize_units` from `backend/utils/ingredient_utils.py`
lines 86-123: converts mass units to grams and volume units to milliliters,
leaving any other unit unchanged. -/
def standardize_units (_ingredient_name : String) (amount : ℚ) (unit : String) : ℚ × String :=
  if unit = "kg" then (amount * 1000, "g")
  else if unit = "mg" then (amount / 1000, "g")
  else if unit = "lb" then (amount * 453.592, "g")
  else if unit = "oz" then (amount * 28.35, "g")
  else if unit = "l" then (amount * 1000, "ml")
  else if unit = "cup" then (amount * 240, "ml")
  else if unit = "tbsp" then (amount * 15, "ml")
  else if unit = "tsp" then (amount * 5, "ml")
  else (amount, unit)

/-- Canonical-unit aggregation following the specification's words for claim
C6 ("every ingredient amount normalized to its canonical unit (grams or
milliliters) before aggregation", spec sections 3 and its GroceryBasket
entry), using the repository's own `standardize_units`; stated only to be
compared with `calculate_grocery_list`, which the code actually runs. -/
def canonical_grocery_list (meal_plan : List (Recipe × ℕ)) : List (String × ℚ) :=
  meal_plan.foldl (fun acc rs =>
    rs.1.ingredients.foldl
      (fun acc2 ing =>
        let su := standardize_units ing.name ing.amount ing.unit
        upsert_add (ing.name ++ " (" ++ su.2 ++ ")") (su.1 * (rs.2 : ℚ)) acc2) acc) []

/-- Store record from the price database JSON shape
(`grocery_optimizer_service.py` `_create_default_prices`). -/
structure Store where
  id : String
  name : String
  location : String
deriving DecidableEq

/-- Price entry record from the price database JSON shape; the JSON key
`section` is rendered `sectionName` because `section` is a Lean keyword. -/
structure PriceEntry where
  ingredient : String
  store_id : String
  unit : String
  price_per_unit : ℚ
  sectionName : String
deriving DecidableEq

/-- In-memory price database (`self._price_database`). -/
structure PriceDatabase where
  stores : List Store
  prices : List PriceEntry
deriving DecidableEq

/-- Line item produced by `_calculate_store_items` / `_optimize_multi_store`;
the dict key `section` is rendered `sectionName`. -/
structure GroceryItem where
  name : String
  quantity : ℚ
  unit : String
  unit_price : ℚ
  total_price : ℚ
  sectionName : String
deriving DecidableEq

/-- Substitution record appended by `_find_substitutions` lines 370-377. -/
structure Substitution where
  original_item : String
  alternative_store : String
  original_price : ℚ
  alternative_price : ℚ
  savings_per_unit : ℚ
  estimated_savings : ℚ
deriving DecidableEq

/-- Result dict of `optimize_grocery_list` lines 138-147.  `stores_used`
mixes whole store dicts (single-store mode) with store-id strings
(multi-store mode), embedded as a sum type. -/
structure GroceryPlan where
  single_store_mode : Bool
  selected_store : Option Store
  stores_used : List (Store ⊕ String)
  total_cost : ℚ
  items_by_store : List (String × List GroceryItem)
  items_by_section : List (String × List GroceryItem)
  substitutions : List Substitution
  cost_savings : ℚ
deriving DecidableEq

/-- Model of Python's `str.lower()` as used for ingredient matching
(per-character ASCII lowering). -/
def ascii_lower (s : String) : String :=
  ⟨s.data.map Char.toLower⟩

/-- Characters of an item key before the first occurrence of the separator
`" ("`, helper for `split_ingredient_name`. -/
def takeBeforeParen : List Char → List Char
  | [] => []
  | ' ' :: '(' :: _ => []
  | c :: cs => c :: takeBeforeParen cs

/-- Model of the recurring idiom `item_name.split(' (')[0]` extracting the
ingredient name from an `"ingredient (unit)"` key. -/
def split_ingredient_name (s : String) : String :=
  ⟨takeBeforeParen s.data⟩

/-- Embedding of `_find_lowest_price_for_ingredient_in_store` lines 214-225:
first price entry matching the ingredient case-insensitively in the given
store. -/
def find_lowest_price_for_ingredient_in_store (db : PriceDatabase) (ingredient : String)
    (store_id : String) : Option PriceEntry :=
  db.prices.find? (fun p =>
    ascii_lower p.ingredient == ascii_lower ingredient && p.store_id == store_id)

/-- Cost of the whole basket at one store as accumulated in
`_find_best_single_store` lines 188-202: `none` encodes the
`can_supply_all = False` early exit. -/
def store_basket_cost (db : PriceDatabase) (store_id : String) :
    List (String × ℚ) → Option ℚ
  | [] => some 0
  | (item_name, quantity) :: rest =>
    match find_lowest_price_for_ingredient_in_store db (split_ingredient_name item_name) store_id with
    | some p => (store_basket_cost db store_id rest).map (fun c => p.price_per_unit * quantity + c)
    | none => none

/-- Fallback store dict used by `_find_best_single_store` lines 179 and 183. -/
def defaultStore : Store :=
  { id := "default", name := "Default Store", location := "N/A" }

/-- Embedding of `_find_best_single_store` lines 173-212: cheapest store able
to supply every basket item; first store as fallback when none can. -/
def find_best_single_store (db : PriceDatabase) (grocery_list : List (String × ℚ)) : Store :=
  if db.stores.isEmpty then defaultStore
  else
    let best := db.stores.foldl (fun acc store =>
      match store_basket_cost db store.id grocery_list with
      | none => acc
      | some c =>
        match acc with
        | none => some (store, c)
        | some bc => if c < bc.2 then some (store, c) else some bc) none
    match best with
    | some bc => bc.1
    | none => db.stores.headD defaultStore

/-- Loop body of `_calculate_store_items` lines 234-262: append the priced
line item, or the 0.10 / "g" / "unknown" fallback, and grow the total. -/
def store_items_step (db : PriceDatabase) (store_id : String)
    (acc : List GroceryItem × ℚ) (kq : String × ℚ) : List GroceryItem × ℚ :=
  let ingredient_name := split_ingredient_name kq.1
  match find_lowest_price_for_ingredient_in_store db ingredient_name store_id with
  | some p =>
    (acc.1 ++ [{ name := ingredient_name, quantity := kq.2, unit := p.unit,
                 unit_price := p.price_per_unit, total_price := p.price_per_unit * kq.2,
                 sectionName := p.sectionName }],
     acc.2 + p.price_per_unit * kq.2)
  | none =>
    (acc.1 ++ [{ name := ingredient_name, quantity := kq.2, unit := "g",
                 unit_price := 0.10, total_price := 0.10 * kq.2,
                 sectionName := "unknown" }],
     acc.2 + 0.10 * kq.2)

/-- Embedding of `_calculate_store_items` lines 227-264: per-item line items
at a fixed store, with the 0.10 / "g" / "unknown" fallback for items the
store does not price, and the running total cost. -/
def calculate_store_items (db : PriceDatabase) (grocery_list : List (String × ℚ))
    (store_id : String) : List GroceryItem × ℚ :=
  grocery_list.foldl (store_items_step db store_id) ([], 0)

/-- Insertion-ordered dict-of-lists update `d.setdefault(k, []).append(v)`. -/
def upsert_append {α : Type} (key : String) (v : α) :
    List (String × List α) → List (String × List α)
  | [] => [(key, [v])]
  | (k, vs) :: rest =>
    if k = key then (k, vs ++ [v]) :: rest else (k, vs) :: upsert_append key v rest

/-- Embedding of `_group_by_section` lines 266-276. -/
def group_by_section (items : List GroceryItem) : List (String × List GroceryItem) :=
  items.foldl (fun acc it => upsert_append it.sectionName it acc) []

/-- Embedding of `_find_lowest_price_for_ingredient` lines 333-347: globally
cheapest matching entry, first-encountered on ties. -/
def find_lowest_price_for_ingredient (db : PriceDatabase) (ingredient : String) :
    Option PriceEntry :=
  db.prices.foldl (fun acc p =>
    if ascii_lower p.ingredient == ascii_lower ingredient then
      match acc with
      | none => some p
      | some b => if p.price_per_unit < b.price_per_unit then some p else some b
    else acc) none

/-- Loop body of `_optimize_multi_store` lines 285-329: route the item to
its cheapest store's bucket, or apply the 0.10 default and route it to the
first existing bucket (creating a "default" bucket when none exists). -/
def multi_store_step (db : PriceDatabase)
    (acc : List (String × List GroceryItem) × ℚ) (kq : String × ℚ) :
    List (String × List GroceryItem) × ℚ :=
  let ingredient_name := split_ingredient_name kq.1
  match find_lowest_price_for_ingredient db ingredient_name with
  | some p =>
    (upsert_append p.store_id
      { name := ingredient_name, quantity := kq.2, unit := p.unit,
        unit_price := p.price_per_unit, total_price := p.price_per_unit * kq.2,
        sectionName := p.sectionName } acc.1,
     acc.2 + p.price_per_unit * kq.2)
  | none =>
    let m := if acc.1.isEmpty then [("default", ([] : List GroceryItem))] else acc.1
    let sid := (m.headD ("default", [])).1
    (upsert_append sid
      { name := ingredient_name, quantity := kq.2, unit := "g",
        unit_price := 0.10, total_price := 0.10 * kq.2,
        sectionName := "unknown" } m,
     acc.2 + 0.10 * kq.2)

/-- Embedding of `_optimize_multi_store` lines 278-331: each ingredient goes
to its globally cheapest store; unpriced ingredients take the 0.10 default
and land in the first existing store bucket (or a fresh "default" bucket). -/
def optimize_multi_store (db : PriceDatabase) (grocery_list : List (String × ℚ)) :
    List (String × List GroceryItem) × ℚ :=
  grocery_list.foldl (multi_store_step db) ([], 0)

/-- Embedding of `_find_all_prices_for_ingredient` lines 381-392. -/
def find_all_prices_for_ingredient (db : PriceDatabase) (ingredient : String) :
    List PriceEntry :=
  db.prices.filter (fun p => ascii_lower p.ingredient == ascii_lower ingredient)

/-- Stable insertion step for the ascending price sort
(`all_prices.sort(key=lambda x: x["price_per_unit"])`). -/
def insert_by_price (p : PriceEntry) : List PriceEntry → List PriceEntry
  | [] => [p]
  | q :: qs =>
    if p.price_per_unit ≤ q.price_per_unit then p :: q :: qs else q :: insert_by_price p qs

/-- Stable ascending sort by price, modelling Python's stable `list.sort`. -/
def sort_by_price : List PriceEntry → List PriceEntry
  | [] => []
  | p :: ps => insert_by_price p (sort_by_price ps)

/-- Embedding of `_get_store_name` lines 394-402. -/
def get_store_name (db : PriceDatabase) (store_id : String) : String :=
  match db.stores.find? (fun s => s.id == store_id) with
  | some s => s.name
  | none => "Unknown Store"

/-- Substitution record appended at `_find_substitutions` lines 370-377,
built from the two cheapest sorted entries `p0` and `p1`. -/
def substitution_record (db : PriceDatabase) (ingredient_name : String) (quantity : ℚ)
    (p0 p1 : PriceEntry) : Substitution :=
  { original_item := ingredient_name,
    alternative_store := get_store_name db p1.store_id,
    original_price := p0.price_per_unit,
    alternative_price := p1.price_per_unit,
    savings_per_unit := p0.price_per_unit - p1.price_per_unit,
    estimated_savings := (p0.price_per_unit - p1.price_per_unit) * quantity }

/-- Per-item body of the `_find_substitutions` loop, lines 355-377: with at
least two matching price entries, sort ascending and compare the second
cheapest against 90% of the cheapest. -/
def substitution_for_item (db : PriceDatabase) (item_name : String) (quantity : ℚ) :
    List Substitution :=
  let ingredient_name := split_ingredient_name item_name
  let all_prices := find_all_prices_for_ingredient db ingredient_name
  if 1 < all_prices.length then
    match sort_by_price all_prices with
    | p0 :: p1 :: _ =>
      if p1.price_per_unit < p0.price_per_unit * 0.9 then
        [substitution_record db ingredient_name quantity p0 p1]
      else []
    | _ => []
  else []

/-- Embedding of `_find_substitutions` lines 349-379. -/
def find_substitutions (db : PriceDatabase) (grocery_list : List (String × ℚ)) :
    List Substitution :=
  grocery_list.foldl (fun acc kq => acc ++ substitution_for_item db kq.1 kq.2) []

/-- Embedding of `optimize_grocery_list` lines 128-171, covering both
single-store and multi-store modes; the `user_preferences` argument is
accepted and unused, as in the source. -/
def optimize_grocery_list (db : PriceDatabase) (grocery_list : List (String × ℚ))
    (_p : UserPreferences) (single_store_mode : Bool) : GroceryPlan :=
  if single_store_mode then
    let best_store := find_best_single_store db grocery_list
    let si := calculate_store_items db grocery_list best_store.id
    { single_store_mode := true,
      selected_store := some best_store,
      stores_used := [Sum.inl best_store],
      total_cost := si.2,
      items_by_store := [(best_store.id, si.1)],
      items_by_section := group_by_section si.1,
      substitutions := find_substitutions db grocery_list,
      cost_savings := 0 }
  else
    let ms := optimize_multi_store db grocery_list
    { single_store_mode := false,
      selected_store := none,
      stores_used := ms.1.map (fun kv => Sum.inr kv.1),
      total_cost := ms.2,
      items_by_store := ms.1,
      items_by_section := [],
      substitutions := find_substitutions db grocery_list,
      cost_savings := 0 }

/-- Ingredient-reuse bonus of `_score_recipe_for_assignment` lines 170-174:
one point per ingredient entry whose name is already a key of the usage
tracker. -/
def reuse_bonus (r : Recipe) (tracker : List (String × ℕ)) : ℕ :=
  (r.ingredients.filter (fun ing =>
    (tracker.find? (fun kv => kv.1 == ing.name)).isSome)).length

/-- Embedding of `MealPlannerService._score_recipe_for_assignment` lines
164-186: `reuse_bonus * 10 - variety_penalty * 5 + macro_alignment * 2`,
with the latter two terms constantly zero in the source. -/
def score_recipe_for_assignment (r : Recipe) (tracker : List (String × ℕ)) : ℤ :=
  let variety_penalty : ℤ := 0
  let macro_alignment : ℤ := 0
  (reuse_bonus r tracker : ℤ) * 10 - variety_penalty * 5 + macro_alignment * 2

/-- Scored candidate list of `_create_daily_meals` lines 116-119:
`(score, index, recipe)` triples from `enumerate(recipe_assignments)`. -/
def build_scored (tracker : List (String × ℕ)) : List Recipe → ℕ → List (ℤ × ℕ × Recipe)
  | [], _ => []
  | r :: rs, i => (score_recipe_for_assignment r tracker, i, r) :: build_scored tracker rs (i + 1)

/-- Stable insertion step for the descending score sort
(`scored_recipes.sort(key=lambda x: x[0], reverse=True)`): an element passes
over exactly the elements of strictly smaller score; equal-score elements
keep their input order, as Python's stable sort does. -/
def insert_desc (t : ℤ × ℕ × Recipe) : List (ℤ × ℕ × Recipe) → List (ℤ × ℕ × Recipe)
  | [] => [t]
  | u :: us => if u.1 ≤ t.1 then t :: u :: us else u :: insert_desc t us

/-- Stable descending sort by score, modelling Python's stable `list.sort`
with `reverse=True`. -/
def sort_desc : List (ℤ × ℕ × Recipe) → List (ℤ × ℕ × Recipe)
  | [] => []
  | t :: ts => insert_desc t (sort_desc ts)

/-- Slot-filling choice of `_create_daily_meals` lines 116-126: score every
remaining occurrence, sort descending by score, take the head. -/
def select_step (pool : List Recipe) (tracker : List (String × ℕ)) :
    Option (ℤ × ℕ × Recipe) :=
  (sort_desc (build_scored tracker pool 0)).head?

/-- Tracker update `ingredient_usage_tracker[name] += 1` (insert at 1 when
absent), lines 129-134. -/
def bump_tracker_key : List (String × ℕ) → String → List (String × ℕ)
  | [], key => [(key, 1)]
  | (k, n) :: rest, key =>
    if k = key then (k, n + 1) :: rest else (k, n) :: bump_tracker_key rest key

/-- Tracker update for every ingredient of the recipe placed in a slot. -/
def bump_tracker (tracker : List (String × ℕ)) (r : Recipe) : List (String × ℕ) :=
  r.ingredients.foldl (fun t ing => bump_tracker_key t ing.name) tracker

/-- State of the scheduling loop of `_create_daily_meals`: the remaining
occurrence pool, the ingredient usage tracker, and the slots filled so far
in day-major, meal-type order. -/
structure SchedState where
  pool : List Recipe
  tracker : List (String × ℕ)
  assigned : List (Option Recipe)
deriving DecidableEq

/-- One slot of the scheduling loop (lines 113-139): when occurrences
remain, place the top-scored one, consume it from the pool and bump the
tracker; otherwise the slot stays empty. -/
def sched_step (st : SchedState) : SchedState :=
  if st.pool.isEmpty then { st with assigned := st.assigned ++ [none] }
  else
    match select_step st.pool st.tracker with
    | some sir =>
      { pool := st.pool.eraseIdx sir.2.1,
        tracker := bump_tracker st.tracker sir.2.2,
        assigned := st.assigned ++ [some sir.2.2] }
    | none => { st with assigned := st.assigned ++ [none] }

/-- Iterated scheduling loop over a given number of slots. -/
def run_sched : ℕ → SchedState → SchedState
  | 0, st => st
  | n + 1, st => run_sched n (sched_step st)

/-- Occurrence expansion of `_create_daily_meals` lines 96-99: one pool entry
per serving, in selection order. -/
def expand_selection (plan : List (Recipe × ℕ)) : List Recipe :=
  plan.foldl (fun acc rs => acc ++ List.replicate rs.2 rs.1) []

/-- Slot contents (21 day-major slots) produced by `_create_daily_meals`
lines 96-139 before the conversion to `DailyMeals` records. -/
def create_daily_meals_assigned (plan : List (Recipe × ℕ)) : List (Option Recipe) :=
  (run_sched 21 { pool := expand_selection plan, tracker := [], assigned := [] }).assigned

/-- Default price database written by `_create_default_prices` lines 33-126:
three stores; chicken breast at 0.11 / 0.13 / 0.15 per gram, broccoli at
0.012 / 0.009 / 0.015, rice at 0.018 / 0.022 / 0.020. -/
def defaultPriceDatabase : PriceDatabase :=
  { stores :=
      [ { id := "store_1", name := "FreshMart", location := "Downtown" },
        { id := "store_2", name := "ValueGrocer", location := "Uptown" },
        { id := "store_3", name := "Organic Plus", location := "Midtown" } ],
    prices :=
      [ { ingredient := "Chicken Breast", store_id := "store_1", unit := "g",
          price_per_unit := 0.11, sectionName := "meat" },
        { ingredient := "Chicken Breast", store_id := "store_2", unit := "g",
          price_per_unit := 0.13, sectionName := "meat" },
        { ingredient := "Chicken Breast", store_id := "store_3", unit := "g",
          price_per_unit := 0.15, sectionName := "meat" },
        { ingredient := "Broccoli", store_id := "store_1", unit := "g",
          price_per_unit := 0.012, sectionName := "produce" },
        { ingredient := "Broccoli", store_id := "store_2", unit := "g",
          price_per_unit := 0.009, sectionName := "produce" },
        { ingredient := "Broccoli", store_id := "store_3", unit := "g",
          price_per_unit := 0.015, sectionName := "produce" },
        { ingredient := "Rice", store_id := "store_1", unit := "g",
          price_per_unit := 0.018, sectionName := "pantry" },
        { ingredient := "Rice", store_id := "store_2", unit := "g",
          price_per_unit := 0.022, sectionName := "pantry" },
        { ingredient := "Rice", store_id := "store_3", unit := "g",
          price_per_unit := 0.020, sectionName := "pantry" } ] }

/-- Scenario A basket from the spec: 300 g of chicken breast. -/
def basketA : List (String × ℚ) :=
  [("chicken breast (g)", 300)]

/-- Scenario B basket: an ingredient absent from the catalog entirely. -/
def basketB : List (String × ℚ) :=
  [("dragon fruit (g)", 100)]

/-- Simple ingredient constructor for concrete scheduling examples. -/
def sampleIngredient (n : String) : Ingredient :=
  { name := n, amount := 100, unit := "g", cost_per_unit := 0.01,
    calories_per_unit := 1, protein_per_unit := 0.1, carbs_per_unit := 0.1,
    fat_per_unit := 0.1 }

/-- Simple recipe constructor for concrete examples: given name, ingredient
names, and total cost; cooking time 20 minutes, no macro totals. -/
def sampleRecipe (n : String) (ings : List String) (cost : ℚ) : Recipe :=
  { id := n, name := n, description := "sample", ingredients := ings.map sampleIngredient,
    steps := [], cooking_time_min := 20, difficulty_level := "beginner",
    cuisine_type := "any", dietary_restrictions := [], allergens := [],
    total_calories := 0, total_protein_g := 0, total_carbs_g := 0,
    total_fat_g := 0, total_cost := cost }

/-- Preference record with no macro targets, 60-minute meals, repeat cap 10
and the given weekly budget. -/
def samplePrefs (budget : ℚ) : UserPreferences :=
  { dietary_restrictions := [], allergies := [], dislikes := [],
    target_protein_g := none, target_carbs_g := none, target_fat_g := none,
    target_calories := none, preferred_cuisines := [],
    cooking_skill_level := "intermediate", max_cooking_time_min := 60,
    weekly_budget := budget, max_repeats_per_week := 10 }

/-- Candidate pool of three recipes costing 10 each: any 21-serving
combination costs at least 210, so a weekly budget of 5 is infeasible. -/
def expensivePool : List Recipe :=
  [sampleRecipe "a" [] 10, sampleRecipe "b" [] 10, sampleRecipe "c" [] 10]

/-- Candidate pool of three recipes costing 1 each: feasible under a weekly
budget of 100. -/
def cheapPool : List Recipe :=
  [sampleRecipe "a" [] 1, sampleRecipe "b" [] 1, sampleRecipe "c" [] 1]

/-- Amount stored under a key of a grocery-basket association list, zero
when the key is absent. -/
def lookup_amount (key : String) (l : List (String × ℚ)) : ℚ :=
  match l.find? (fun kv => kv.1 = key) with
  | some kv => kv.2
  | none => 0

/-- Reference aggregate used to state claim C6's amended form: the total
`amount * servings` contributed to a key by a meal plan. -/
def key_amount (key : String) (mp : List (Recipe × ℕ)) : ℚ :=
  (mp.map (fun rs =>
    ((rs.1.ingredients.filter (fun i => grocery_key i = key)).map
      (fun i => i.amount * (rs.2 : ℚ))).sum)).sum

/-- Sum of the `total_price` fields of a list of line items. -/
def sum_item_totals (items : List GroceryItem) : ℚ :=
  (items.map (fun it => it.total_price)).sum

/-- Sum of the `total_price` fields across all per-store line-item lists. -/
def sum_store_totals (m : List (String × List GroceryItem)) : ℚ :=
  (m.map (fun kv => sum_item_totals kv.2)).sum

/-- Default line item built by `_calculate_store_items` lines 254-261 for a
basket entry the selected store cannot price. -/
def unpriced_fallback_item (k : String) (q : ℚ) : GroceryItem :=
  { name := split_ingredient_name k, quantity := q, unit := "g",
    unit_price := 0.10, total_price := 0.10 * q, sectionName := "unknown" }

/-- Line item built by `_calculate_store_items` for a basket entry,
priced when the store carries it and the 0.10 fallback otherwise. -/
def store_item_for (db : PriceDatabase) (store_id : String) (k : String) (q : ℚ) :
    GroceryItem :=
  match find_lowest_price_for_ingredient_in_store db (split_ingredient_name k) store_id with
  | some p =>
    { name := split_ingredient_name k, quantity := q, unit := p.unit,
      unit_price := p.price_per_unit, total_price := p.price_per_unit * q,
      sectionName := p.sectionName }
  | none => unpriced_fallback_item k q

/-- Two-store catalog with negative prices for the witness of claim C4: the
only way the source's substitution condition `second < cheapest * 0.9` can
hold after an ascending sort. -/
def negPriceDatabase : PriceDatabase :=
  { stores :=
      [ { id := "s1", name := "Neg One", location := "A" },
        { id := "s2", name := "Neg Two", location := "B" } ],
    prices :=
      [ { ingredient := "weird", store_id := "s1", unit := "g",
          price_per_unit := -10, sectionName := "misc" },
        { ingredient := "weird", store_id := "s2", unit := "g",
          price_per_unit := -9.5, sectionName := "misc" } ] }

/-- Basket holding the negatively priced ingredient of `negPriceDatabase`. -/
def basketNeg : List (String × ℚ) :=
  [("weird (g)", 2)]

/-- Recipe built around a 2 kg ingredient, exercising the absence of unit
normalization in `calculate_grocery_list`. -/
def kgRecipe : Recipe :=
  { id := "kg", name := "kg", description := "kg", ingredients :=
      [{ name := "Flour", amount := 2, unit := "kg", cost_per_unit := 1,
         calories_per_unit := 3, protein_per_unit := 0.1, carbs_per_unit := 0.7,
         fat_per_unit := 0.01 }],
    steps := [], cooking_time_min := 20, difficulty_level := "beginner",
    cuisine_type := "any", dietary_restrictions := [], allergens := [],
    total_calories := 0, total_protein_g := 0, total_carbs_g := 0,
    total_fat_g := 0, total_cost := 2 }

/-! Helper lemmas about the association-list dictionary operations. -/

theorem lookup_amount_nil (key : String) : lookup_amount key [] = 0 := rfl

theorem lookup_amount_cons (key k : String) (v : ℚ) (l : List (String × ℚ)) :
    lookup_amount key ((k, v) :: l) = if k = key then v else lookup_amount key l := by
  by_cases h : k = key <;> simp [lookup_amount, List.find?_cons, h]

theorem lookup_amount_upsert (key k : String) (a : ℚ) (l : List (String × ℚ)) :
    lookup_amount key (upsert_add k a l)
      = lookup_amount key l + (if k = key then a else 0) := by
  induction l with
  | nil =>
    by_cases h : k = key <;>
      simp [upsert_add, lookup_amount_cons, lookup_amount_nil, h]
  | cons kv rest ih =>
    obtain ⟨k0, v0⟩ := kv
    by_cases h0 : k0 = k
    · subst h0
      by_cases hk : k0 = key <;>
        simp [upsert_add, lookup_amount_cons, hk] <;> ring
    · by_cases hk : k0 = key
      · subst hk
        have hkey : ¬ k = k0 := fun h => h0 h.symm
        simp [upsert_add, h0, lookup_amount_cons, hkey]
      · simp [upsert_add, h0, lookup_amount_cons, hk, ih]

theorem grocery_inner_fold (key : String) (s : ℕ) (ings : List Ingredient) :
    ∀ acc : List (String × ℚ),
      lookup_amount key
        (ings.foldl (fun a i => upsert_add (grocery_key i) (i.amount * (s : ℚ)) a) acc)
        = lookup_amount key acc
          + ((ings.filter (fun i => grocery_key i = key)).map
              (fun i => i.amount * (s : ℚ))).sum := by
  induction ings with
  | nil => intro acc; simp
  | cons i t ih =>
    intro acc
    simp only [List.foldl_cons]
    rw [ih, lookup_amount_upsert]
    by_cases h : grocery_key i = key <;> simp [List.filter_cons, h] <;> ring

theorem grocery_outer_fold (key : String) (mp : List (Recipe × ℕ)) :
    ∀ acc : List (String × ℚ),
      lookup_amount key
        (mp.foldl (fun acc rs =>
          rs.1.ingredients.foldl
            (fun a i => upsert_add (grocery_key i) (i.amount * (rs.2 : ℚ)) a) acc) acc)
        = lookup_amount key acc + key_amount key mp := by
  induction mp with
  | nil => intro acc; simp [key_amount]
  | cons rs t ih =>
    intro acc
    simp only [List.foldl_cons]
    rw [ih, grocery_inner_fold]
    simp [key_amount]
    ring

/-- Claim C6 (amended): the basket built by `calculate_grocery_list` maps
each key `"name (unit)"`, with the ingredient's raw unit, to the sum of
`amount * servings` over all selection entries whose ingredient carries
exactly that name and raw unit; no conversion to a canonical unit occurs. -/
theorem C6_raw_unit_aggregation (mp : List (Recipe × ℕ)) (key : String) :
    lookup_amount key (calculate_grocery_list mp) = key_amount key mp := by
  have h := grocery_outer_fold key mp []
  simpa [calculate_grocery_list, lookup_amount_nil] using h

/-- Claim C6 (counterexample): for a one-recipe selection whose ingredient
is measured in kilograms, `calculate_grocery_list` keys it under the raw
unit `kg` with the raw amount, which differs from the canonical-unit
aggregation the specification asserts (2 kg would become 2000 g). -/
theorem C6_counterexample :
    calculate_grocery_list [(kgRecipe, 1)] = [("Flour (kg)", 2)] ∧
    canonical_grocery_list [(kgRecipe, 1)] = [("Flour (g)", 2000)] ∧
    calculate_grocery_list [(kgRecipe, 1)] ≠ canonical_grocery_list [(kgRecipe, 1)] := by
  refine ⟨by decide, by decide, by decide⟩

/-- Claim C8: every scheduling score is non-negative, and of two candidate
occurrences evaluated against the same ingredient-usage tracker the one
with the strictly higher reuse count is never scored lower (the score is
exactly ten times the reuse count; the variety and macro terms are zero). -/
theorem C8_reuse_monotone_nonneg :
    (∀ (r : Recipe) (tracker : List (String × ℕ)),
      0 ≤ score_recipe_for_assignment r tracker) ∧
    (∀ (r1 r2 : Recipe) (tracker : List (String × ℕ)),
      reuse_bonus r2 tracker < reuse_bonus r1 tracker →
      score_recipe_for_assignment r2 tracker ≤ score_recipe_for_assignment r1 tracker) := by
  constructor
  · intro r tracker
    simp [score_recipe_for_assignment]
  · intro r1 r2 tracker h
    simp [score_recipe_for_assignment]
    omega

/-- Claim C8 witness: with tracker `{"y": 1}`, a recipe using `y` has reuse
count 1 and score 10, a recipe using only `x` has reuse count 0 and score
0. -/
theorem C8_witness :
    reuse_bonus (sampleRecipe "b" ["x"] 1) [("y", 1)]
      < reuse_bonus (sampleRecipe "a" ["y"] 1) [("y", 1)] ∧
    score_recipe_for_assignment (sampleRecipe "b" ["x"] 1) [("y", 1)]
      ≤ score_recipe_for_assignment (sampleRecipe "a" ["y"] 1) [("y", 1)] :=
  ⟨by decide,
   C8_reuse_monotone_nonneg.2 (sampleRecipe "a" ["y"] 1) (sampleRecipe "b" ["x"] 1)
     [("y", 1)] (by decide)⟩

/-- Claim C3 (counterexample): on Scenario A's basket (300 g chicken breast
against the default catalog) the substitution list is empty — the claimed
record recommending store_2 with savings 6.0 is not produced, because the
source compares the second-cheapest price against 90% of the cheapest,
which cannot hold after an ascending sort of non-negative prices. -/
theorem C3_counterexample :
    (optimize_grocery_list defaultPriceDatabase basketA (samplePrefs 100) true).substitutions
      = [] := by
  decide

/-- Claim C3 (amended): Scenario A selects store_1 with total cost 33.0 and
produces no substitution record at all. -/
theorem C3_scenarioA :
    (optimize_grocery_list defaultPriceDatabase basketA (samplePrefs 100) true).selected_store
      = some { id := "store_1", name := "FreshMart", location := "Downtown" } ∧
    (optimize_grocery_list defaultPriceDatabase basketA (samplePrefs 100) true).total_cost
      = 33 ∧
    (optimize_grocery_list defaultPriceDatabase basketA (samplePrefs 100) true).substitutions
      = [] := by
  refine ⟨by decide, by decide, by decide⟩

/-! Helper lemmas about the single-store line-item computation. -/

theorem store_items_step_eq (db : PriceDatabase) (store_id : String)
    (acc : List GroceryItem × ℚ) (kq : String × ℚ) :
    store_items_step db store_id acc kq
      = (acc.1 ++ [store_item_for db store_id kq.1 kq.2],
         acc.2 + (store_item_for db store_id kq.1 kq.2).total_price) := by
  unfold store_items_step store_item_for unpriced_fallback_item
  cases h : find_lowest_price_for_ingredient_in_store db (split_ingredient_name kq.1) store_id <;>
    simp [h]

theorem calc_store_items_fold (db : PriceDatabase) (store_id : String)
    (l : List (String × ℚ)) :
    ∀ acc : List GroceryItem × ℚ,
      l.foldl (store_items_step db store_id) acc
        = (acc.1 ++ l.map (fun kq => store_item_for db store_id kq.1 kq.2),
           acc.2 + (l.map (fun kq =>
             (store_item_for db store_id kq.1 kq.2).total_price)).sum) := by
  induction l with
  | nil => intro acc; simp
  | cons kq t ih =>
    intro acc
    simp [List.foldl_cons, store_items_step_eq, ih, List.append_assoc, add_assoc]

theorem calc_store_items_spec (db : PriceDatabase) (store_id : String)
    (l : List (String × ℚ)) :
    calculate_store_items db l store_id
      = (l.map (fun kq => store_item_for db store_id kq.1 kq.2),
         (l.map (fun kq => (store_item_for db store_id kq.1 kq.2).total_price)).sum) := by
  have h := calc_store_items_fold db store_id l ([], 0)
  simpa [calculate_store_items] using h

/-! Helper lemmas about the multi-store computation. -/

theorem sum_store_totals_upsert (k : String) (it : GroceryItem) :
    ∀ m : List (String × List GroceryItem),
      sum_store_totals (upsert_append k it m) = sum_store_totals m + it.total_price := by
  intro m
  induction m with
  | nil => simp [upsert_append, sum_store_totals, sum_item_totals]
  | cons kv rest ih =>
    obtain ⟨k0, vs⟩ := kv
    by_cases h : k0 = k
    · simp [upsert_append, h, sum_store_totals, sum_item_totals]
      ring
    · simp [upsert_append, h, sum_store_totals, sum_item_totals] at ih ⊢
      rw [ih]
      ring

theorem multi_store_step_sum (db : PriceDatabase)
    (acc : List (String × List GroceryItem) × ℚ) (kq : String × ℚ) :
    sum_store_totals (multi_store_step db acc kq).1 + acc.2
      = sum_store_totals acc.1 + (multi_store_step db acc kq).2 := by
  unfold multi_store_step
  cases h : find_lowest_price_for_ingredient db (split_ingredient_name kq.1) with
  | some p =>
    simp [h, sum_store_totals_upsert]
    ring
  | none =>
    by_cases he : acc.1.isEmpty
    · have h0 : acc.1 = [] := List.isEmpty_iff.mp he
      simp [h, he, h0, upsert_append, sum_store_totals, sum_item_totals]
      ring
    · simp [h, he, sum_store_totals_upsert]
      ring

theorem multi_store_fold_sum (db : PriceDatabase) (l : List (String × ℚ)) :
    ∀ acc : List (String × List GroceryItem) × ℚ,
      sum_store_totals (l.foldl (multi_store_step db) acc).1 + acc.2
        = sum_store_totals acc.1 + (l.foldl (multi_store_step db) acc).2 := by
  induction l with
  | nil => intro acc; simp
  | cons kq t ih =>
    intro acc
    simp only [List.foldl_cons]
    have h1 := multi_store_step_sum db acc kq
    have h2 := ih (multi_store_step db acc kq)
    linarith

/-- Claim C9: in both single-store and multi-store mode, the sum of the
`total_price` fields over all per-store line items of the returned plan
equals the plan's reported `total_cost` (exactly, in the rational
embedding of the float arithmetic). -/
theorem C9_line_items_sum_to_total (db : PriceDatabase) (basket : List (String × ℚ))
    (p : UserPreferences) (mode : Bool) :
    sum_store_totals (optimize_grocery_list db basket p mode).items_by_store
      = (optimize_grocery_list db basket p mode).total_cost := by
  cases mode with
  | false =>
    simp only [optimize_grocery_list, Bool.false_eq_true, if_false]
    have h := multi_store_fold_sum db basket ([], 0)
    simpa [optimize_multi_store, sum_store_totals, sum_item_totals] using h
  | true =>
    simp only [optimize_grocery_list, if_true]
    rw [calc_store_items_spec]
    simp [sum_store_totals, sum_item_totals, List.map_map, Function.comp_def]

/-- Claim C5 (amended): in single-store mode every basket ingredient with no
price entry at the selected store still yields a line item, carrying unit
"g", unit price 0.10, section "unknown" and line total `0.10 * quantity`,
inside the plan's single per-store item list; but the returned plan records
no warning of any kind for it (the result carries no warning field). -/
theorem C5_unpriced_fallback_item_kept (db : PriceDatabase) (basket : List (String × ℚ))
    (p : UserPreferences) (k : String) (q : ℚ) (hmem : (k, q) ∈ basket)
    (hmiss : find_lowest_price_for_ingredient_in_store db (split_ingredient_name k)
      (find_best_single_store db basket).id = none) :
    unpriced_fallback_item k q
      ∈ (calculate_store_items db basket (find_best_single_store db basket).id).1 ∧
    (optimize_grocery_list db basket p true).items_by_store
      = [((find_best_single_store db basket).id,
          (calculate_store_items db basket (find_best_single_store db basket).id).1)] ∧
    (optimize_grocery_list db basket p true).total_cost
      = (calculate_store_items db basket (find_best_single_store db basket).id).2 := by
  refine ⟨?_, by simp [optimize_grocery_list], by simp [optimize_grocery_list]⟩
  have heq : store_item_for db (find_best_single_store db basket).id k q
      = unpriced_fallback_item k q := by
    simp [store_item_for, hmiss]
  have hm : store_item_for db (find_best_single_store db basket).id k q
      ∈ (calculate_store_items db basket (find_best_single_store db basket).id).1 := by
    rw [calc_store_items_spec]
    exact List.mem_map_of_mem _ hmem
  rw [heq] at hm
  exact hm

/-- Claim C5 witness: Scenario B's dragon-fruit basket against the default
catalog satisfies the hypotheses, and the fallback line item is kept. -/
theorem C5_witness :
    (("dragon fruit (g)", (100 : ℚ)) ∈ basketB) ∧
    (find_lowest_price_for_ingredient_in_store defaultPriceDatabase
      (split_ingredient_name "dragon fruit (g)")
      (find_best_single_store defaultPriceDatabase basketB).id = none) ∧
    (unpriced_fallback_item "dragon fruit (g)" 100
        ∈ (calculate_store_items defaultPriceDatabase basketB
            (find_best_single_store defaultPriceDatabase basketB).id).1 ∧
      (optimize_grocery_list defaultPriceDatabase basketB (samplePrefs 100) true).items_by_store
        = [((find_best_single_store defaultPriceDatabase basketB).id,
            (calculate_store_items defaultPriceDatabase basketB
              (find_best_single_store defaultPriceDatabase basketB).id).1)] ∧
      (optimize_grocery_list defaultPriceDatabase basketB (samplePrefs 100) true).total_cost
        = (calculate_store_items defaultPriceDatabase basketB
            (find_best_single_store defaultPriceDatabase basketB).id).2) :=
  ⟨by decide, by decide,
   C5_unpriced_fallback_item_kept defaultPriceDatabase basketB (samplePrefs 100)
     "dragon fruit (g)" 100 (by decide) (by decide)⟩

/-- Claim C5 (counterexample): the complete plan returned for Scenario B.
The fallback line item is present with unit price 0.10 and section
"unknown", but the plan consists of exactly the eight fields below — no
structured `UnpricedIngredient` warning exists anywhere in the result; in
particular `substitutions` is empty and `cost_savings` is zero. -/
theorem C5_counterexample :
    optimize_grocery_list defaultPriceDatabase basketB (samplePrefs 100) true
      = { single_store_mode := true,
          selected_store := some { id := "store_1", name := "FreshMart", location := "Downtown" },
          stores_used := [Sum.inl { id := "store_1", name := "FreshMart", location := "Downtown" }],
          total_cost := 10,
          items_by_store := [("store_1",
            [{ name := "dragon fruit", quantity := 100, unit := "g", unit_price := 0.10,
               total_price := 10, sectionName := "unknown" }])],
          items_by_section := [("unknown",
            [{ name := "dragon fruit", quantity := 100, unit := "g", unit_price := 0.10,
               total_price := 10, sectionName := "unknown" }])],
          substitutions := [],
          cost_savings := 0 } := by
  decide

/-! Helper lemmas about the substitution computation. -/

theorem length_insert_by_price (p : PriceEntry) :
    ∀ l : List PriceEntry, (insert_by_price p l).length = l.length + 1 := by
  intro l
  induction l with
  | nil => rfl
  | cons q qs ih =>
    by_cases h : p.price_per_unit ≤ q.price_per_unit <;> simp [insert_by_price, h, ih]

theorem length_sort_by_price :
    ∀ l : List PriceEntry, (sort_by_price l).length = l.length := by
  intro l
  induction l with
  | nil => rfl
  | cons p ps ih => simp [sort_by_price, length_insert_by_price, ih]

theorem find_substitutions_flatten (db : PriceDatabase) (l : List (String × ℚ)) :
    ∀ acc : List Substitution,
      l.foldl (fun a kq => a ++ substitution_for_item db kq.1 kq.2) acc
        = acc ++ (l.map (fun kq => substitution_for_item db kq.1 kq.2)).flatten := by
  induction l with
  | nil => intro acc; simp
  | cons kq t ih => intro acc; simp [ih]

theorem mem_find_substitutions (db : PriceDatabase) (l : List (String × ℚ))
    (s : Substitution) :
    s ∈ find_substitutions db l ↔ ∃ kq ∈ l, s ∈ substitution_for_item db kq.1 kq.2 := by
  unfold find_substitutions
  rw [find_substitutions_flatten]
  simp only [List.nil_append, List.mem_flatten, List.mem_map, Prod.exists]
  constructor
  · rintro ⟨l1, ⟨a, b, hab, rfl⟩, hs⟩
    exact ⟨a, b, hab, hs⟩
  · rintro ⟨a, b, hab, hs⟩
    exact ⟨substitution_for_item db a b, ⟨a, b, hab, rfl⟩, hs⟩

theorem mem_substitution_for_item (db : PriceDatabase) (k : String) (q : ℚ)
    (s : Substitution) :
    s ∈ substitution_for_item db k q ↔
      ∃ p0 p1 rest,
        sort_by_price (find_all_prices_for_ingredient db (split_ingredient_name k))
          = p0 :: p1 :: rest ∧
        p1.price_per_unit < p0.price_per_unit * 0.9 ∧
        s = substitution_record db (split_ingredient_name k) q p0 p1 := by
  unfold substitution_for_item
  by_cases hlen : 1 < (find_all_prices_for_ingredient db (split_ingredient_name k)).length
  · simp only [hlen, if_true]
    have hlsort := length_sort_by_price (find_all_prices_for_ingredient db (split_ingredient_name k))
    cases hs : sort_by_price (find_all_prices_for_ingredient db (split_ingredient_name k)) with
    | nil =>
      rw [hs] at hlsort
      simp at hlsort
      omega
    | cons p0 tail =>
      cases tail with
      | nil =>
        rw [hs] at hlsort
        simp at hlsort
        omega
      | cons p1 rest =>
        by_cases hc : p1.price_per_unit < p0.price_per_unit * 0.9
        · simp only [hc, if_true, List.mem_singleton]
          constructor
          · intro h
            exact ⟨p0, p1, rest, rfl, hc, h⟩
          · rintro ⟨p0x, p1x, restx, heq, hcx, rfl⟩
            injection heq with h1 h2
            injection h2 with h2 h3
            subst h1; subst h2
            rfl
        · simp only [hc, if_false, List.not_mem_nil, false_iff]
          rintro ⟨p0x, p1x, restx, heq, hcx, rfl⟩
          injection heq with h1 h2
          injection h2 with h2 h3
          subst h1; subst h2
          exact hc hcx
  · simp only [hlen, if_false, List.not_mem_nil, false_iff]
    rintro ⟨p0x, p1x, restx, heq, hcx, rfl⟩
    have hlsort := length_sort_by_price (find_all_prices_for_ingredient db (split_ingredient_name k))
    rw [heq] at hlsort
    simp at hlsort
    omega

/-- Claim C4: the substitution pass runs in both single-store and multi-store
mode; for a basket ingredient a substitution record is emitted exactly when
its price entries, sorted ascending (hence at least two of them), have a
second-cheapest price strictly below 90% of the cheapest; and the record
then names the second-cheapest entry's store, both prices, and the savings
`(cheapest - second-cheapest) * quantity`. -/
theorem C4_substitution_rule (db : PriceDatabase) (basket : List (String × ℚ))
    (p : UserPreferences) (k : String) (q : ℚ) (hmem : (k, q) ∈ basket) :
    ((optimize_grocery_list db basket p true).substitutions = find_substitutions db basket ∧
     (optimize_grocery_list db basket p false).substitutions = find_substitutions db basket) ∧
    ((∃ s ∈ find_substitutions db basket, s.original_item = split_ingredient_name k) ↔
      ∃ p0 p1 rest,
        sort_by_price (find_all_prices_for_ingredient db (split_ingredient_name k))
          = p0 :: p1 :: rest ∧
        p1.price_per_unit < p0.price_per_unit * 0.9) ∧
    (∀ (p0 p1 : PriceEntry) (rest : List PriceEntry),
      sort_by_price (find_all_prices_for_ingredient db (split_ingredient_name k))
        = p0 :: p1 :: rest →
      p1.price_per_unit < p0.price_per_unit * 0.9 →
      substitution_record db (split_ingredient_name k) q p0 p1
        ∈ find_substitutions db basket) := by
  refine ⟨⟨by simp [optimize_grocery_list], by simp [optimize_grocery_list]⟩, ?_, ?_⟩
  · constructor
    · rintro ⟨s, hsmem, hname⟩
      rcases (mem_find_substitutions db basket s).mp hsmem with ⟨kq, hkq, hs⟩
      rcases (mem_substitution_for_item db kq.1 kq.2 s).mp hs with
        ⟨p0, p1, rest, hsort, hc, hrec⟩
      have horig : s.original_item = split_ingredient_name kq.1 := by rw [hrec]; rfl
      rw [horig] at hname
      rw [hname] at hsort
      exact ⟨p0, p1, rest, hsort, hc⟩
    · rintro ⟨p0, p1, rest, hsort, hc⟩
      refine ⟨substitution_record db (split_ingredient_name k) q p0 p1, ?_, rfl⟩
      exact (mem_find_substitutions db basket _).mpr
        ⟨(k, q), hmem,
         (mem_substitution_for_item db k q _).mpr ⟨p0, p1, rest, hsort, hc, rfl⟩⟩
  · intro p0 p1 rest hsort hc
    exact (mem_find_substitutions db basket _).mpr
      ⟨(k, q), hmem,
       (mem_substitution_for_item db k q _).mpr ⟨p0, p1, rest, hsort, hc, rfl⟩⟩

/-- Claim C4 witness: on the negative-price two-store catalog the condition
fires (−9.5 < −10 · 0.9), so a substitution is emitted for the basket item;
all three conjuncts are instantiated at that concrete catalog and basket. -/
theorem C4_witness :
    (("weird (g)", (2 : ℚ)) ∈ basketNeg) ∧
    (((optimize_grocery_list negPriceDatabase basketNeg (samplePrefs 100) true).substitutions
        = find_substitutions negPriceDatabase basketNeg ∧
      (optimize_grocery_list negPriceDatabase basketNeg (samplePrefs 100) false).substitutions
        = find_substitutions negPriceDatabase basketNeg) ∧
     ((∃ s ∈ find_substitutions negPriceDatabase basketNeg,
        s.original_item = split_ingredient_name "weird (g)") ↔
       ∃ p0 p1 rest,
         sort_by_price (find_all_prices_for_ingredient negPriceDatabase
           (split_ingredient_name "weird (g)")) = p0 :: p1 :: rest ∧
         p1.price_per_unit < p0.price_per_unit * 0.9) ∧
     (∀ (p0 p1 : PriceEntry) (rest : List PriceEntry),
       sort_by_price (find_all_prices_for_ingredient negPriceDatabase
         (split_ingredient_name "weird (g)")) = p0 :: p1 :: rest →
       p1.price_per_unit < p0.price_per_unit * 0.9 →
       substitution_record negPriceDatabase (split_ingredient_name "weird (g)") 2 p0 p1
         ∈ find_substitutions negPriceDatabase basketNeg)) :=
  ⟨by decide,
   C4_substitution_rule negPriceDatabase basketNeg (samplePrefs 100) "weird (g)" 2 (by decide)⟩

/-! Helper lemmas about the integer-program model. -/

theorem mem_allVectors {n : ℕ} {xs : List ℕ} (h : xs ∈ allVectors n) :
    xs.length = n ∧ ∀ v ∈ xs, v ≤ 10 := by
  induction n generalizing xs with
  | zero =>
    simp [allVectors] at h
    subst h
    simp
  | succ n ih =>
    simp only [allVectors, List.mem_flatten, List.mem_map] at h
    obtain ⟨l, ⟨v, hv, rfl⟩, hx⟩ := h
    simp only [List.mem_map] at hx
    obtain ⟨ys, hys, rfl⟩ := hx
    obtain ⟨hlen, hub⟩ := ih hys
    refine ⟨by simp [hlen], ?_⟩
    intro w hw
    rcases List.mem_cons.mp hw with rfl | hw
    · simp only [List.mem_range] at hv
      omega
    · exact hub w hw

theorem foldl_choose_cheaper_mem (recipes : List Recipe) :
    ∀ (l : List (List ℕ)) (b : Option (List ℕ)) (x : List ℕ),
      l.foldl (choose_cheaper recipes) b = some x → x ∈ l ∨ b = some x := by
  intro l
  induction l with
  | nil => intro b x h; exact Or.inr h
  | cons a t ih =>
    intro b x h
    simp only [List.foldl_cons] at h
    rcases ih (choose_cheaper recipes b a) x h with hx | hb
    · exact Or.inl (List.mem_cons_of_mem _ hx)
    · cases b with
      | none =>
        simp [choose_cheaper] at hb
        subst hb
        exact Or.inl (List.mem_cons_self _ _)
      | some b0 =>
        simp only [choose_cheaper] at hb
        by_cases hg : wsum recipes a (fun r => r.total_cost)
            < wsum recipes b0 (fun r => r.total_cost)
        · rw [if_pos hg] at hb
          injection hb with hb
          subst hb
          exact Or.inl (List.mem_cons_self _ _)
        · rw [if_neg hg] at hb
          exact Or.inr hb

theorem solveIP_mem_feasible {recipes : List Recipe} {p : UserPreferences} {days : ℕ}
    {xs : List ℕ} (h : solveIP recipes p days = some xs) :
    xs ∈ allVectors recipes.length ∧ feasible recipes p days xs = true := by
  unfold solveIP at h
  rcases foldl_choose_cheaper_mem recipes _ none xs h with hx | hb
  · exact List.mem_filter.mp hx
  · cases hb

theorem filter_pos_sum_q (l : List (Recipe × ℕ)) (f : Recipe → ℚ) :
    ((l.filter (fun rx => 0 < rx.2)).map (fun rs => (rs.2 : ℚ) * f rs.1)).sum
      = (l.map (fun rs => (rs.2 : ℚ) * f rs.1)).sum := by
  induction l with
  | nil => rfl
  | cons a t ih =>
    by_cases h : 0 < a.2
    · simp [List.filter_cons, h, ih]
    · have h0 : a.2 = 0 := by omega
      simp [List.filter_cons, h, ih, h0]

theorem filter_pos_sum_nat (l : List (Recipe × ℕ)) :
    ((l.filter (fun rx => 0 < rx.2)).map (fun rs => rs.2)).sum
      = (l.map (fun rs => rs.2)).sum := by
  induction l with
  | nil => rfl
  | cons a t ih =>
    by_cases h : 0 < a.2
    · simp [List.filter_cons, h, ih]
    · have h0 : a.2 = 0 := by omega
      simp [List.filter_cons, h, ih, h0]

theorem zip_snd_sum (recipes : List Recipe) (xs : List ℕ) (h : xs.length = recipes.length) :
    ((recipes.zip xs).map (fun rs => rs.2)).sum = xs.sum := by
  have hmap : (recipes.zip xs).map Prod.snd = xs :=
    List.map_snd_zip recipes xs (le_of_eq h)
  calc ((recipes.zip xs).map (fun rs => rs.2)).sum
      = ((recipes.zip xs).map Prod.snd).sum := rfl
    _ = xs.sum := by rw [hmap]

theorem macroBandOK_spec {t : ℤ} {a : ℚ} (h : macroBandOK t a = true) (ht : 0 < t) :
    (0.8 : ℚ) * (t : ℚ) ≤ a ∧ a ≤ (1.2 : ℚ) * (t : ℚ) := by
  simp only [macroBandOK, if_pos ht, Bool.and_eq_true, decide_eq_true_eq] at h
  exact h

/-- Claim C1 (amended): whenever the integer program is infeasible,
`optimize_meal_plan` returns the plain empty list — `_relax_and_solve`
performs no constraint relaxation and there is no distinct Infeasible
outcome in the return type — and the caller `generate_meal_plan` treats the
empty selection as a hard failure by raising `ValueError`. -/
theorem C1_infeasible_returns_empty (recipes : List Recipe) (p : UserPreferences)
    (hne : recipes ≠ []) (hinf : solveIP recipes p 7 = none) :
    optimize_meal_plan recipes p 7 = relax_and_solve recipes p 7 ∧
    optimize_meal_plan recipes p 7 = [] ∧
    generate_meal_plan_selection recipes p
      = Except.error "Could not generate a meal plan within your constraints" := by
  have h1 : optimize_meal_plan recipes p 7 = [] := by
    simp [optimize_meal_plan, hinf, relax_and_solve]
  refine ⟨by simp [optimize_meal_plan, hinf, relax_and_solve], h1, ?_⟩
  simp [generate_meal_plan_selection, h1, hne]

set_option maxRecDepth 100000 in
/-- Claim C1 witness: three candidate recipes costing 10 per serving under a
weekly budget of 5 make every 21-serving combination unaffordable; the
solver model reports infeasibility and the selector returns the empty
list, which the caller converts into an error. -/
theorem C1_witness :
    optimize_meal_plan expensivePool (samplePrefs 5) 7 = relax_and_solve expensivePool (samplePrefs 5) 7 ∧
    optimize_meal_plan expensivePool (samplePrefs 5) 7 = [] ∧
    generate_meal_plan_selection expensivePool (samplePrefs 5)
      = Except.error "Could not generate a meal plan within your constraints" :=
  C1_infeasible_returns_empty expensivePool (samplePrefs 5) (by decide) (by decide)

set_option maxRecDepth 100000 in
/-- Claim C1 (counterexample): at the concrete infeasible instance the
selector returns the empty list — not an explicit Infeasible outcome; its
return type `List (Recipe × ℕ)` has no such outcome, and the relaxation
helper returns the empty list unconditionally. -/
theorem C1_counterexample :
    solveIP expensivePool (samplePrefs 5) 7 = none ∧
    optimize_meal_plan expensivePool (samplePrefs 5) 7 = [] ∧
    relax_and_solve expensivePool (samplePrefs 5) 7 = [] := by
  refine ⟨by decide, by decide, rfl⟩

/-- Claim C2: every non-empty selection returned by `optimize_meal_plan`
over a 7-day horizon satisfies the advertised invariants: positive integral
servings capped by `min 10 max_repeats_per_week`, weighted cost within the
weekly budget, at least 21 total servings, and every positively targeted
macro within its 20% band (the relaxation path never contributes a
non-empty selection, so no relaxed band arises). -/
theorem C2_selection_invariants (recipes : List Recipe) (p : UserPreferences)
    (hne : optimize_meal_plan recipes p 7 ≠ []) :
    (∀ rs ∈ optimize_meal_plan recipes p 7,
      0 < rs.2 ∧ rs.2 ≤ min 10 p.max_repeats_per_week) ∧
    selectionCost (optimize_meal_plan recipes p 7) ≤ p.weekly_budget ∧
    21 ≤ servingsTotal (optimize_meal_plan recipes p 7) ∧
    weeklyBandOK p.target_protein_g 7
      (selectionMacroSum (optimize_meal_plan recipes p 7) (fun r => r.total_protein_g)) ∧
    weeklyBandOK p.target_carbs_g 7
      (selectionMacroSum (optimize_meal_plan recipes p 7) (fun r => r.total_carbs_g)) ∧
    weeklyBandOK p.target_fat_g 7
      (selectionMacroSum (optimize_meal_plan recipes p 7) (fun r => r.total_fat_g)) ∧
    weeklyBandOK p.target_calories 7
      (selectionMacroSum (optimize_meal_plan recipes p 7) (fun r => r.total_calories)) := by
  obtain ⟨xs, hs⟩ : ∃ xs, solveIP recipes p 7 = some xs := by
    cases h : solveIP recipes p 7 with
    | some xs => exact ⟨xs, rfl⟩
    | none =>
      exact absurd (by simp [optimize_meal_plan, h, relax_and_solve]) hne
  obtain ⟨hvec, hfeas⟩ := solveIP_mem_feasible hs
  obtain ⟨hlen, hub⟩ := mem_allVectors hvec
  have hsel : optimize_meal_plan recipes p 7
      = (recipes.zip xs).filter (fun rx => 0 < rx.2) := by
    simp [optimize_meal_plan, hs]
  simp only [feasible, Bool.and_eq_true, decide_eq_true_eq, List.all_eq_true] at hfeas
  obtain ⟨⟨⟨⟨⟨⟨⟨⟨h21, h10⟩, hrep⟩, _hcook⟩, hbud⟩, hpro⟩, hcarb⟩, hfat⟩, hcal⟩ := hfeas
  have hwsum : ∀ f : Recipe → ℚ,
      selectionMacroSum (optimize_meal_plan recipes p 7) f = wsum recipes xs f := by
    intro f
    rw [hsel]
    exact filter_pos_sum_q (recipes.zip xs) f
  refine ⟨?_, ?_, ?_, ?_, ?_, ?_, ?_⟩
  · intro rs hrs
    rw [hsel] at hrs
    obtain ⟨hzip, hpos⟩ := List.mem_filter.mp hrs
    have hx : rs.2 ∈ xs := (List.of_mem_zip hzip).2
    simp only [decide_eq_true_eq] at hpos
    exact ⟨hpos, le_min (by simpa using h10 rs.2 hx) (by simpa using hrep rs.2 hx)⟩
  · have := hwsum (fun r => r.total_cost)
    calc selectionCost (optimize_meal_plan recipes p 7)
        = wsum recipes xs (fun r => r.total_cost) := this
      _ ≤ p.weekly_budget := hbud
  · have h1 : servingsTotal (optimize_meal_plan recipes p 7) = xs.sum := by
      rw [hsel]
      unfold servingsTotal
      rw [filter_pos_sum_nat, zip_snd_sum recipes xs hlen]
    rw [h1]
    omega
  · intro ht
    rw [hwsum]
    exact macroBandOK_spec hpro ht
  · intro ht
    rw [hwsum]
    exact macroBandOK_spec hcarb ht
  · intro ht
    rw [hwsum]
    exact macroBandOK_spec hfat ht
  · intro ht
    rw [hwsum]
    exact macroBandOK_spec hcal ht

set_option maxRecDepth 100000 in
/-- Claim C2 witness: three recipes costing 1 per serving under a budget of
100 yield a non-empty selection, and the invariants hold at it. -/
theorem C2_witness :
    optimize_meal_plan cheapPool (samplePrefs 100) 7 ≠ [] ∧
    ((∀ rs ∈ optimize_meal_plan cheapPool (samplePrefs 100) 7,
       0 < rs.2 ∧ rs.2 ≤ min 10 (samplePrefs 100).max_repeats_per_week) ∧
     selectionCost (optimize_meal_plan cheapPool (samplePrefs 100) 7)
       ≤ (samplePrefs 100).weekly_budget ∧
     21 ≤ servingsTotal (optimize_meal_plan cheapPool (samplePrefs 100) 7) ∧
     weeklyBandOK (samplePrefs 100).target_protein_g 7
       (selectionMacroSum (optimize_meal_plan cheapPool (samplePrefs 100) 7)
         (fun r => r.total_protein_g)) ∧
     weeklyBandOK (samplePrefs 100).target_carbs_g 7
       (selectionMacroSum (optimize_meal_plan cheapPool (samplePrefs 100) 7)
         (fun r => r.total_carbs_g)) ∧
     weeklyBandOK (samplePrefs 100).target_fat_g 7
       (selectionMacroSum (optimize_meal_plan cheapPool (samplePrefs 100) 7)
         (fun r => r.total_fat_g)) ∧
     weeklyBandOK (samplePrefs 100).target_calories 7
       (selectionMacroSum (optimize_meal_plan cheapPool (samplePrefs 100) 7)
         (fun r => r.total_calories))) :=
  ⟨by decide, C2_selection_invariants cheapPool (samplePrefs 100) (by decide)⟩

/-! Helper lemmas about the greedy scheduler. -/

theorem length_insert_desc (t : ℤ × ℕ × Recipe) :
    ∀ l : List (ℤ × ℕ × Recipe), (insert_desc t l).length = l.length + 1 := by
  intro l
  induction l with
  | nil => rfl
  | cons u us ih =>
    by_cases h : u.1 ≤ t.1 <;> simp [insert_desc, h, ih]

theorem length_sort_desc :
    ∀ l : List (ℤ × ℕ × Recipe), (sort_desc l).length = l.length := by
  intro l
  induction l with
  | nil => rfl
  | cons t ts ih => simp [sort_desc, length_insert_desc, ih]

theorem sort_desc_head :
    ∀ (l : List (ℤ × ℕ × Recipe)) (t : ℤ × ℕ × Recipe) (rest : List (ℤ × ℕ × Recipe)),
      sort_desc l = t :: rest →
      ∃ l1 l2, l = l1 ++ t :: l2 ∧ (∀ u ∈ l1, u.1 < t.1) ∧ ∀ u ∈ l, u.1 ≤ t.1 := by
  intro l
  induction l with
  | nil => intro t rest h; simp [sort_desc] at h
  | cons x xs ih =>
    intro t rest h
    simp only [sort_desc] at h
    cases hxs : sort_desc xs with
    | nil =>
      have hx : xs = [] := by
        have hl := length_sort_desc xs
        rw [hxs] at hl
        exact List.length_eq_zero.mp hl.symm
      subst hx
      rw [hxs] at h
      simp only [insert_desc] at h
      injection h with h1 h2
      subst h1
      exact ⟨[], [], rfl, by simp, by simp⟩
    | cons y ys =>
      rw [hxs] at h
      obtain ⟨m1, m2, hxs_eq, hm1, hall⟩ := ih y ys hxs
      simp only [insert_desc] at h
      by_cases hle : y.1 ≤ x.1
      · rw [if_pos hle] at h
        injection h with h1 h2
        subst h1
        refine ⟨[], xs, rfl, by simp, ?_⟩
        intro u hu
        rcases List.mem_cons.mp hu with rfl | hu
        · exact le_refl _
        · exact le_trans (hall u hu) hle
      · rw [if_neg hle] at h
        injection h with h1 h2
        subst h1
        push_neg at hle
        refine ⟨x :: m1, m2, by rw [hxs_eq]; rfl, ?_, ?_⟩
        · intro u hu
          rcases List.mem_cons.mp hu with rfl | hu
          · exact hle
          · exact hm1 u hu
        · intro u hu
          rcases List.mem_cons.mp hu with rfl | hu
          · exact le_of_lt hle
          · exact hall u hu

theorem build_scored_len (tracker : List (String × ℕ)) :
    ∀ (pool : List Recipe) (k : ℕ), (build_scored tracker pool k).length = pool.length := by
  intro pool
  induction pool with
  | nil => intro k; rfl
  | cons r rs ih => intro k; simp [build_scored, ih]

theorem build_scored_split (tracker : List (String × ℕ)) :
    ∀ (pool : List Recipe) (k : ℕ) (l1 : List (ℤ × ℕ × Recipe)) (t : ℤ × ℕ × Recipe)
      (l2 : List (ℤ × ℕ × Recipe)),
      build_scored tracker pool k = l1 ++ t :: l2 →
      ∃ p1 p2, pool = p1 ++ t.2.2 :: p2 ∧ t.2.1 = k + p1.length ∧
        t.1 = score_recipe_for_assignment t.2.2 tracker ∧
        l1 = build_scored tracker p1 k := by
  intro pool
  induction pool with
  | nil =>
    intro k l1 t l2 h
    simp only [build_scored] at h
    exact absurd h (by cases l1 <;> simp)
  | cons r rs ih =>
    intro k l1 t l2 h
    simp only [build_scored] at h
    cases l1 with
    | nil =>
      simp only [List.nil_append] at h
      injection h with h1 h2
      subst h1
      exact ⟨[], rs, by simp, by simp, rfl, rfl⟩
    | cons w l1x =>
      simp only [List.cons_append] at h
      injection h with h1 h2
      obtain ⟨p1x, p2, hpool, hidx, hscore, hl1⟩ := ih (k + 1) l1x t l2 h2
      refine ⟨r :: p1x, p2, by simp [hpool], ?_, hscore, ?_⟩
      · simp only [List.length_cons, hidx]
        omega
      · simp [build_scored, ← h1, hl1]

theorem build_scored_mem (tracker : List (String × ℕ)) :
    ∀ (pool : List Recipe) (k : ℕ) (x : Recipe), x ∈ pool →
      ∃ j, (score_recipe_for_assignment x tracker, j, x) ∈ build_scored tracker pool k := by
  intro pool
  induction pool with
  | nil => intro k x hx; cases hx
  | cons r rs ih =>
    intro k x hx
    rcases List.mem_cons.mp hx with rfl | hx
    · exact ⟨k, List.mem_cons_self _ _⟩
    · obtain ⟨j, hj⟩ := ih (k + 1) x hx
      exact ⟨j, List.mem_cons_of_mem _ hj⟩

theorem select_step_spec (pool : List Recipe) (tracker : List (String × ℕ))
    (s : ℤ) (i : ℕ) (r : Recipe)
    (h : select_step pool tracker = some (s, i, r)) :
    ∃ p1 p2, pool = p1 ++ r :: p2 ∧ i = p1.length ∧
      s = score_recipe_for_assignment r tracker ∧
      (∀ u ∈ p1, score_recipe_for_assignment u tracker < s) ∧
      (∀ u ∈ pool, score_recipe_for_assignment u tracker ≤ s) := by
  unfold select_step at h
  cases hsort : sort_desc (build_scored tracker pool 0) with
  | nil => rw [hsort] at h; cases h
  | cons t rest =>
    rw [hsort] at h
    simp only [List.head?_cons, Option.some.injEq] at h
    subst h
    obtain ⟨l1, l2, hsplit, hlt, hle⟩ := sort_desc_head _ _ _ hsort
    obtain ⟨p1, p2, hpool, hidx, hscore, hl1⟩ := build_scored_split tracker pool 0 l1 _ l2 hsplit
    refine ⟨p1, p2, hpool, by simpa using hidx, hscore, ?_, ?_⟩
    · intro u hu
      obtain ⟨j, hj⟩ := build_scored_mem tracker p1 0 u hu
      rw [← hl1] at hj
      exact hlt _ hj
    · intro u hu
      obtain ⟨j, hj⟩ := build_scored_mem tracker pool 0 u hu
      exact hle _ hj

theorem select_step_isSome (pool : List Recipe) (tracker : List (String × ℕ))
    (hne : pool ≠ []) :
    ∃ s i r, select_step pool tracker = some (s, i, r) := by
  unfold select_step
  cases hsort : sort_desc (build_scored tracker pool 0) with
  | nil =>
    exfalso
    have h1 := length_sort_desc (build_scored tracker pool 0)
    rw [hsort] at h1
    have h2 := build_scored_len tracker pool 0
    rw [← h1] at h2
    exact hne (List.length_eq_zero.mp h2.symm)
  | cons t rest =>
    exact ⟨t.1, t.2.1, t.2.2, by simp⟩

theorem eraseIdx_append_middle (p1 : List Recipe) (r : Recipe) (p2 : List Recipe) :
    (p1 ++ r :: p2).eraseIdx p1.length = p1 ++ p2 := by
  induction p1 with
  | nil => rfl
  | cons a t ih => simp [List.eraseIdx, ih]

theorem run_sched_shape :
    ∀ (n : ℕ) (pool : List Recipe) (tracker : List (String × ℕ))
      (acc : List (Option Recipe)),
      ∃ rs : List Recipe,
        rs.length = min n pool.length ∧
        (run_sched n ⟨pool, tracker, acc⟩).assigned
          = acc ++ rs.map some ++ List.replicate (n - pool.length) none ∧
        (run_sched n ⟨pool, tracker, acc⟩).pool.length = pool.length - n ∧
        List.Perm (rs ++ (run_sched n ⟨pool, tracker, acc⟩).pool) pool := by
  intro n
  induction n with
  | zero =>
    intro pool tracker acc
    exact ⟨[], by simp, by simp [run_sched], by simp [run_sched], by simp [run_sched]⟩
  | succ n ih =>
    intro pool tracker acc
    cases hpool : pool with
    | nil =>
      have hstep : sched_step ⟨[], tracker, acc⟩ = ⟨[], tracker, acc ++ [none]⟩ := by
        simp [sched_step]
      have hrun : run_sched (n + 1) ⟨[], tracker, acc⟩
          = run_sched n ⟨[], tracker, acc ++ [none]⟩ := by
        show run_sched n (sched_step ⟨[], tracker, acc⟩) = _
        rw [hstep]
      obtain ⟨rs, hlen, hass, hplen, hperm⟩ := ih [] tracker (acc ++ [none])
      have hrs : rs = [] := List.length_eq_zero.mp (by simpa using hlen)
      subst hrs
      refine ⟨[], by simp, ?_, ?_, ?_⟩
      · rw [hrun, hass]
        simp [List.replicate_succ]
      · rw [hrun, hplen]
        omega
      · rw [hrun]
        simpa using hperm
    | cons r0 ps =>
      have hne : r0 :: ps ≠ [] := by simp
      obtain ⟨s, i, r, hsel⟩ := select_step_isSome (r0 :: ps) tracker hne
      obtain ⟨p1, p2, hdecomp, hidx, _, _, _⟩ := select_step_spec _ tracker s i r hsel
      have hstep : sched_step ⟨r0 :: ps, tracker, acc⟩
          = ⟨(r0 :: ps).eraseIdx i, bump_tracker tracker r, acc ++ [some r]⟩ := by
        simp [sched_step, hsel]
      have herase : (r0 :: ps).eraseIdx i = p1 ++ p2 := by
        rw [hdecomp, hidx]
        exact eraseIdx_append_middle p1 r p2
      have hrun : run_sched (n + 1) ⟨r0 :: ps, tracker, acc⟩
          = run_sched n ⟨p1 ++ p2, bump_tracker tracker r, acc ++ [some r]⟩ := by
        show run_sched n (sched_step ⟨r0 :: ps, tracker, acc⟩) = _
        rw [hstep, herase]
      have hplen2 : (p1 ++ p2).length + 1 = (r0 :: ps).length := by
        rw [hdecomp]
        simp
        omega
      obtain ⟨rsx, hlenx, hassx, hplenx, hpermx⟩ :=
        ih (p1 ++ p2) (bump_tracker tracker r) (acc ++ [some r])
      refine ⟨r :: rsx, ?_, ?_, ?_, ?_⟩
      · have hpp := hplen2
        simp only [List.length_cons] at hpp
        simp only [List.length_cons, hlenx]
        omega
      · rw [hrun, hassx]
        have hsub : n - (p1 ++ p2).length = (n + 1) - (r0 :: ps).length := by omega
        rw [hsub]
        simp
      · rw [hrun, hplenx]
        omega
      · rw [hrun]
        have h1 : List.Perm (r :: (rsx ++ (run_sched n ⟨p1 ++ p2, bump_tracker tracker r, acc ++ [some r]⟩).pool))
            (r :: (p1 ++ p2)) := hpermx.cons r
        have h2 : List.Perm (r :: (p1 ++ p2)) (p1 ++ r :: p2) := List.perm_middle.symm
        rw [hdecomp]
        exact (h1.trans h2)

/-- Claim C7: the scheduler is a pure function, so two runs on the same
selection expansion are identical; and at every scheduling step the chosen
occurrence realizes the maximum score over the remaining pool, with ties
broken by the earliest position — every strictly earlier occurrence scores
strictly lower, and the reported index is that position. -/
theorem C7_deterministic_first_max :
    (∀ plan : List (Recipe × ℕ),
      create_daily_meals_assigned plan = create_daily_meals_assigned plan) ∧
    (∀ (pool : List Recipe) (tracker : List (String × ℕ)) (s : ℤ) (i : ℕ) (r : Recipe),
      select_step pool tracker = some (s, i, r) →
      ∃ p1 p2, pool = p1 ++ r :: p2 ∧ i = p1.length ∧
        s = score_recipe_for_assignment r tracker ∧
        (∀ u ∈ p1, score_recipe_for_assignment u tracker < s) ∧
        (∀ u ∈ pool, score_recipe_for_assignment u tracker ≤ s)) :=
  ⟨fun _ => rfl, fun pool tracker s i r h => select_step_spec pool tracker s i r h⟩

/-- Claim C7 witness: with tracker `{"y": 1}` and pool `[a(x), b(y)]` the
scheduler picks occurrence `b` at index 1 with score 10, the unique
maximum. -/
theorem C7_witness :
    select_step [sampleRecipe "a" ["x"] 1, sampleRecipe "b" ["y"] 1] [("y", 1)]
      = some (10, 1, sampleRecipe "b" ["y"] 1) ∧
    (∃ p1 p2,
      [sampleRecipe "a" ["x"] 1, sampleRecipe "b" ["y"] 1]
        = p1 ++ sampleRecipe "b" ["y"] 1 :: p2 ∧
      1 = p1.length ∧
      (10 : ℤ) = score_recipe_for_assignment (sampleRecipe "b" ["y"] 1) [("y", 1)] ∧
      (∀ u ∈ p1, score_recipe_for_assignment u [("y", 1)] < 10) ∧
      (∀ u ∈ [sampleRecipe "a" ["x"] 1, sampleRecipe "b" ["y"] 1],
        score_recipe_for_assignment u [("y", 1)] ≤ 10)) :=
  ⟨by decide,
   C7_deterministic_first_max.2 [sampleRecipe "a" ["x"] 1, sampleRecipe "b" ["y"] 1]
     [("y", 1)] 10 1 (sampleRecipe "b" ["y"] 1) (by decide)⟩

/-- Claim C10: the scheduler fills exactly `min 21 n` slots where `n` is the
total number of expanded occurrences: the assignment is 21 slots long, its
first `min 21 n` slots hold one occurrence each (consumed from the pool, as
the permutation conjunct shows), the trailing slots in day-major order are
all empty, and `n - 21` excess occurrences remain unplaced in the leftover
pool, appearing in no slot. -/
theorem C10_min_slots_filled (plan : List (Recipe × ℕ)) :
    ∃ rs : List Recipe,
      rs.length = min 21 (expand_selection plan).length ∧
      create_daily_meals_assigned plan
        = rs.map some ++ List.replicate (21 - (expand_selection plan).length) none ∧
      (create_daily_meals_assigned plan).length = 21 ∧
      (run_sched 21 ⟨expand_selection plan, [], []⟩).pool.length
        = (expand_selection plan).length - 21 ∧
      List.Perm (rs ++ (run_sched 21 ⟨expand_selection plan, [], []⟩).pool)
        (expand_selection plan) := by
  obtain ⟨rs, h1, h2, h3, h4⟩ := run_sched_shape 21 (expand_selection plan) [] []
  have h2x : create_daily_meals_assigned plan
      = rs.map some ++ List.replicate (21 - (expand_selection plan).length) none := by
    simpa [create_daily_meals_assigned] using h2
  refine ⟨rs, h1, h2x, ?_, h3, h4⟩
  rw [h2x]
  simp only [List.length_append, List.length_map, List.length_replicate, h1]
  omega

end OptiMeal
